import Mathlib

/-!
Shallow embedding of the GST-Project reminder/message delivery pipeline.

The definitions below are translated from the repository's source:
* `claim_pending_reminders` — the plpgsql atomic claim function
  (migration file, `UPDATE ... WHERE id IN (SELECT ... FOR UPDATE SKIP LOCKED)`);
* `processReminder` and the `markReminder*` helpers — the cron drain worker
  (supabase variant of the send-reminders route);
* `enqueueWhatsAppMessage` — the supabase variant of the messaging queue
  module;
* `createReminderSchedule` — `src/lib/reminders/scheduler.ts`;
* `cancelPendingRemindersForContact` / `cancelPendingMessagesForContact` —
  `src/lib/messaging/opt-out.ts`;
* `optOutContact` / `hasWhatsAppConsent` — the standalone opt-out module;
* `cancel_reminders_on_deadline_filed` — the database trigger function;
* `generateDeadlines` — the GST deadline generator.

Timestamps are modelled as natural numbers counting minutes (UTC).  Where a
runtime timezone matters (JavaScript's `setHours` in the scheduler), the
definitions carry an explicit timezone offset in minutes east of UTC — the
server runtime's offset, which the source never reconciles with the
`accounts.timezone` column ('Asia/Kolkata' by default, +330 minutes); the
plain single-offset forms (`atNineLocal` etc.) are the same computation with
the offset specialised away.  Calendar dates for the deadline generator are
modelled as explicit year/month/day records with a civil-calendar day-of-week
computation.  Database errors are modelled as explicit boolean/`Except`
outcomes.
-/

namespace GST

/-! ### Status enumerations (reminder_schedule.status, message_outbox.delivery_status) -/

inductive ReminderStatus where
  | pending
  | sent
  | failed
  | cancelled
deriving DecidableEq

inductive DeliveryStatus where
  | queued
  | sent
  | delivered
  | read
  | failed
  | cancelled
deriving DecidableEq

/-! ### Rows of the pipeline tables -/

/-- A row of `reminder_schedule` (schema migration 001 plus the claim columns
added by the constraints migration). -/
structure Reminder where
  id : Nat
  deadline_id : Nat
  template_id : String
  send_at : Nat
  sent_at : Option Nat
  status : ReminderStatus
  error_message : Option String
  claimed_at : Option Nat
  claimed_by : Option String
deriving DecidableEq

/-- The row shape returned by `claim_pending_reminders`
(`RETURNS TABLE (id, deadline_id, template_id, send_at)`). -/
structure ClaimedRow where
  id : Nat
  deadline_id : Nat
  template_id : String
  send_at : Nat
deriving DecidableEq

/-- Projection of a `reminder_schedule` row to the columns returned by the
claim function. -/
def Reminder.toClaimedRow (r : Reminder) : ClaimedRow :=
  ⟨r.id, r.deadline_id, r.template_id, r.send_at⟩

/-! ### Keyed insertion sort (model of `ORDER BY key ASC` / `Array.sort`) -/

def insertByKey (k : α → Nat) (a : α) : List α → List α
  | [] => [a]
  | x :: xs => if k a ≤ k x then a :: x :: xs else x :: insertByKey k a xs

def sortByKey (k : α → Nat) : List α → List α
  | [] => []
  | x :: xs => insertByKey k x (sortByKey k xs)

/-! ### The atomic claim function (`claim_pending_reminders`) -/

/-- The `WHERE` clause of the claim function's inner select:
`status = 'pending' AND claimed_at IS NULL AND send_at <= p_now`. -/
def eligibleAt (now : Nat) (r : Reminder) : Bool :=
  r.status == ReminderStatus.pending && r.claimed_at.isNone && decide (r.send_at ≤ now)

/-- The claim function's `SET claimed_at = p_now, claimed_by = p_worker_id`. -/
def stampClaim (now : Nat) (w : String) (r : Reminder) : Reminder :=
  { r with claimed_at := some now, claimed_by := some w }

/-- Result of one claim call: the returned rows plus the post-update queue. -/
structure ClaimOutput where
  rows : List ClaimedRow
  queue : List Reminder
deriving DecidableEq

/-- Model of the plpgsql function `claim_pending_reminders(p_worker_id,
p_batch_size, p_now)`: select up to `batchSize` rows that are pending,
unclaimed and due, ordered by `send_at` ascending; stamp `claimed_at`/
`claimed_by` on exactly those rows in the same atomic step; return their
`(id, deadline_id, template_id, send_at)` projections.  The serialization of
the atomic `UPDATE ... SELECT ... FOR UPDATE SKIP LOCKED` is the sequential
composition of such calls. -/
def claim_pending_reminders (w : String) (batchSize : Nat) (now : Nat)
    (qs : List Reminder) : ClaimOutput :=
  let picked := (sortByKey Reminder.send_at (qs.filter (eligibleAt now))).take batchSize
  let pickedIds := picked.map Reminder.id
  { rows := picked.map Reminder.toClaimedRow
    queue := qs.map (fun r => if r.id ∈ pickedIds then stampClaim now w r else r) }

/-- Two drain workers claiming one after the other: the serialization of two
concurrent calls of the atomic claim function against the same queue. -/
def claimTwice (w1 w2 : String) (b now : Nat) (qs : List Reminder) :
    ClaimOutput × ClaimOutput :=
  let o1 := claim_pending_reminders w1 b now qs
  (o1, claim_pending_reminders w2 b now o1.queue)

/-! ### Contacts and the joined deadline fetch used by the drain worker -/

/-- A row of `contacts` (the consent-relevant columns). -/
structure Contact where
  id : Nat
  account_id : Nat
  phone : Option String
  whatsapp_consent : Bool
  opt_out_at : Option Nat
  consent_change_reason : Option String
deriving DecidableEq

/-- JavaScript truthiness of an optional string (`c.phone` in the worker's
eligibility test): `null`/`undefined`/`""` are falsy. -/
def truthyStr : Option String → Bool
  | none => false
  | some s => !(s == "")

/-- The joined row fetched by `processReminder` (deadline columns plus the
account's contacts via the nested `!inner` selects). -/
structure DeadlineFetch where
  id : Nat
  gstin : String
  return_type : String
  due_date : String
  filed_at : Option Nat
  contacts : List Contact
deriving DecidableEq

/-- The template parameter bag (`WhatsAppTemplateParameters`). -/
structure TemplateParams where
  gstin : String
  return_type : String
  due_date : String
deriving DecidableEq

/-- A row of `message_outbox` (the columns the enqueue insert writes). -/
structure OutboxMessage where
  contact_id : Nat
  template_id : String
  parameters : TemplateParams
  scheduled_for : Nat
  delivery_status : DeliveryStatus
deriving DecidableEq

/-- The drain summary (`SendRemindersResult`). -/
structure SendRemindersResult where
  processed : Nat
  sent : Nat
  skipped : Nat
  failed : Nat
  errors : List (Nat × String)
deriving DecidableEq

/-- The mutable tables touched by one reminder's processing. -/
structure PipelineState where
  reminders : List Reminder
  outbox : List OutboxMessage
deriving DecidableEq

/-- The worker's contact-eligibility test:
`contacts.find(c => c.whatsapp_consent && c.phone && !c.opt_out_at)`. -/
def findEligibleContact (cs : List Contact) : Option Contact :=
  cs.find? (fun c => c.whatsapp_consent && truthyStr c.phone && c.opt_out_at.isNone)

/-- Update every `reminder_schedule` row whose id matches (`.eq('id', rid)`). -/
def updateReminderById (rid : Nat) (f : Reminder → Reminder)
    (tbl : List Reminder) : List Reminder :=
  tbl.map (fun r => if r.id == rid then f r else r)

/-- `markReminderSent`: set status `sent` and `sent_at = now`. -/
def markReminderSent (rid now : Nat) (tbl : List Reminder) : List Reminder :=
  updateReminderById rid
    (fun r => { r with status := ReminderStatus.sent, sent_at := some now }) tbl

/-- `markReminderSkipped`: set status `cancelled`, `sent_at = now` and the
fixed error message. -/
def markReminderSkipped (rid now : Nat) (tbl : List Reminder) : List Reminder :=
  updateReminderById rid
    (fun r => { r with status := ReminderStatus.cancelled, sent_at := some now,
                       error_message := some "Deadline already filed or no eligible contact" }) tbl

/-- `markReminderFailed`: set status `failed` and the error message. -/
def markReminderFailed (rid : Nat) (msg : String) (tbl : List Reminder) : List Reminder :=
  updateReminderById rid
    (fun r => { r with status := ReminderStatus.failed, error_message := some msg }) tbl

/-- Model of `enqueueWhatsAppMessage(contactId, templateId, parameters,
scheduledFor, phoneNumber)` (supabase variant of the messaging queue module):
inserts one `message_outbox` row with `contact_id`, `template_id`,
`parameters`, `scheduled_for` and `delivery_status = 'queued'`; the
`phoneNumber` argument is accepted but not part of the insert payload; an
insert error is thrown (`Failed to enqueue message`).  `enqErr` is that
insert's error outcome. -/
def enqueueWhatsAppMessage (contactId : Nat) (templateId : String)
    (params : TemplateParams) (schedFor : Nat) (_phoneNumber : Option String)
    (enqErr : Bool) (outbox : List OutboxMessage) :
    Except String (List OutboxMessage) :=
  if enqErr then Except.error "Failed to enqueue message"
  else Except.ok
    (outbox ++ [⟨contactId, templateId, params, schedFor, DeliveryStatus.queued⟩])

/-- Model of `processReminder(reminder, result, now)` from the claim-based
drain worker.  `fetch` is the outcome of the joined deadline select (`none`
models `deadlineError || !deadline`); `enqErr` is the enqueue insert's error
outcome, whose thrown error the surrounding `catch` turns into a `failed`
reminder.  Mirrors the source's branch order: deadline missing → failed;
`filed_at` set → skipped (cancelled); no eligible contact → skipped
(cancelled); otherwise enqueue the outbox message and mark the reminder
sent, or mark it failed when the enqueue throws. -/
def processReminder (rem : ClaimedRow) (fetch : Option DeadlineFetch)
    (st : PipelineState) (res : SendRemindersResult) (now : Nat)
    (enqErr : Bool) : PipelineState × SendRemindersResult :=
  match fetch with
  | none =>
      ({ st with reminders := markReminderFailed rem.id "Deadline not found" st.reminders },
       { res with failed := res.failed + 1,
                  errors := res.errors ++ [(rem.id, "Deadline not found")] })
  | some d =>
      if d.filed_at.isSome then
        ({ st with reminders := markReminderSkipped rem.id now st.reminders },
         { res with skipped := res.skipped + 1 })
      else
        match findEligibleContact d.contacts with
        | none =>
            ({ st with reminders := markReminderSkipped rem.id now st.reminders },
             { res with skipped := res.skipped + 1 })
        | some c =>
            let params : TemplateParams := ⟨d.gstin, d.return_type, d.due_date⟩
            match enqueueWhatsAppMessage c.id rem.template_id params now c.phone
                enqErr st.outbox with
            | Except.error msg =>
                ({ st with reminders := markReminderFailed rem.id msg st.reminders },
                 { res with failed := res.failed + 1,
                            errors := res.errors ++ [(rem.id, msg)] })
            | Except.ok outbox2 =>
                ({ reminders := markReminderSent rem.id now st.reminders,
                   outbox := outbox2 },
                 { res with sent := res.sent + 1 })

/-! ### The reminder scheduler (`createReminderSchedule`) -/

/-- Minutes in a day; timestamps are local wall-clock minutes. -/
def minutesPerDay : Nat := 1440

/-- `setHours(9, 0, 0, 0)`: keep the calendar day, set the time to 09:00. -/
def atNineLocal (t : Nat) : Nat := (t / minutesPerDay) * minutesPerDay + 540

/-- Template id constants (`ReminderTemplateId`). -/
def tMinus3Template : String := "gst_deadline_tminus3"

def tMinus1Template : String := "gst_deadline_tminus1"

def dueDayTemplate : String := "gst_deadline_dueday"

/-- A `reminder_schedule` insert payload
(`{deadline_id, template_id, send_at, status}`). -/
structure ReminderInsert where
  deadline_id : Nat
  template_id : String
  send_at : Nat
  status : ReminderStatus
deriving DecidableEq

/-- The deadline row fetched by the scheduler
(`select('id, due_date, filed_at')`); `due_date` is the DATE at local
midnight. -/
structure DeadlineRec where
  id : Nat
  due_date : Nat
  filed_at : Option Nat
deriving DecidableEq

/-- The scheduler's `remindersToCreate` list: candidates at due−3d, due−1d
and due day, each at 09:00, kept only when strictly in the future
(`candidate > now`), pushed in that order. -/
def remindersToCreate (deadlineId dueDate now : Nat) : List ReminderInsert :=
  let t3 := atNineLocal (dueDate - 3 * minutesPerDay)
  let t1 := atNineLocal (dueDate - minutesPerDay)
  let dd := atNineLocal dueDate
  (if now < t3 then [⟨deadlineId, tMinus3Template, t3, ReminderStatus.pending⟩] else []) ++
  (if now < t1 then [⟨deadlineId, tMinus1Template, t1, ReminderStatus.pending⟩] else []) ++
  (if now < dd then [⟨deadlineId, dueDayTemplate, dd, ReminderStatus.pending⟩] else [])

/-- `ReminderScheduleResult`. -/
structure ScheduleResult where
  deadline_id : Nat
  reminders_created : Nat
  reminders : List ReminderInsert
deriving DecidableEq

/-- Does a new row violate the `unique_deadline_template` constraint
(`UNIQUE (deadline_id, template_id)`) against the existing table? -/
def conflictsWith (tbl : List ReminderInsert) (nr : ReminderInsert) : Bool :=
  tbl.any (fun r => r.deadline_id == nr.deadline_id && r.template_id == nr.template_id)

/-- Model of `createReminderSchedule(deadlineId)`.  `fetch` is the deadline
select outcome; the table argument is `reminder_schedule` restricted to its
insert-relevant columns.  A plain `.insert` is used in the source, so a
unique-constraint conflict on any row surfaces as an error (the statement is
atomic: nothing is inserted); otherwise all rows are appended. -/
def createReminderSchedule (fetch : Option DeadlineRec) (now : Nat)
    (tbl : List ReminderInsert) :
    Except String (ScheduleResult × List ReminderInsert) :=
  match fetch with
  | none => Except.error "Deadline not found"
  | some d =>
      if d.filed_at.isSome then
        Except.ok (⟨d.id, 0, []⟩, tbl)
      else
        let rows := remindersToCreate d.id d.due_date now
        if rows.isEmpty then
          Except.ok (⟨d.id, 0, []⟩, tbl)
        else if rows.any (conflictsWith tbl) then
          Except.error "Failed to create reminders: duplicate key value violates unique constraint unique_deadline_template"
        else
          Except.ok (⟨d.id, rows.length, rows⟩, tbl ++ rows)

/-- The `accounts.timezone` schema default `'Asia/Kolkata'`, as an offset in
minutes east of UTC (+05:30). -/
def kolkataOffset : Nat := 330

/-- `setHours(9, 0, 0, 0)` interpreted in the timezone `tz` minutes east of
UTC, on a UTC-minute timestamp: keep the calendar day of the local
wall-clock, set the local time to 09:00.  `atNineLocal` is this computation
with offset 0 (server clock = UTC). -/
def atNineOffset (tz t : Nat) : Nat :=
  ((t + tz) / minutesPerDay) * minutesPerDay + 540 - tz

/-- Is a UTC-minute timestamp at 09:00 wall-clock in the timezone `tz`
minutes east of UTC? -/
def isNineInTz (tz t : Nat) : Bool := (t + tz) % minutesPerDay == 540

/-- The scheduler's `remindersToCreate` list with the server runtime's
timezone offset explicit: `setHours(9,0,0,0)` runs in the server's timezone
(`accounts.timezone` is never read), so the candidates sit at 09:00
**server** wall-clock time.  `remindersToCreate` above is the `serverTz = 0`
case. -/
def remindersToCreateTz (serverTz deadlineId dueDate now : Nat) : List ReminderInsert :=
  let t3 := atNineOffset serverTz (dueDate - 3 * minutesPerDay)
  let t1 := atNineOffset serverTz (dueDate - minutesPerDay)
  let dd := atNineOffset serverTz dueDate
  (if now < t3 then [⟨deadlineId, tMinus3Template, t3, ReminderStatus.pending⟩] else []) ++
  (if now < t1 then [⟨deadlineId, tMinus1Template, t1, ReminderStatus.pending⟩] else []) ++
  (if now < dd then [⟨deadlineId, dueDayTemplate, dd, ReminderStatus.pending⟩] else [])

/-- Stated from the spec's words, for the refinement statements about the
scheduler: the three candidate (template, send-at) pairs due−3d, due−1d and
due-day at 09:00 wall-clock in the timezone `tz`, filtered to those strictly
in the future. -/
def specCandidatesInTz (tz dueDate now : Nat) : List (String × Nat) :=
  ([(tMinus3Template, atNineOffset tz (dueDate - 3 * minutesPerDay)),
    (tMinus1Template, atNineOffset tz (dueDate - minutesPerDay)),
    (dueDayTemplate, atNineOffset tz dueDate)]).filter (fun p => decide (now < p.2))

/-- `createReminderSchedule` with the server runtime's timezone offset
explicit (the timestamps it persists are computed by `setHours` in the
server's timezone); `createReminderSchedule` above is the `serverTz = 0`
case. -/
def createReminderScheduleTz (serverTz : Nat) (fetch : Option DeadlineRec) (now : Nat)
    (tbl : List ReminderInsert) :
    Except String (ScheduleResult × List ReminderInsert) :=
  match fetch with
  | none => Except.error "Deadline not found"
  | some d =>
      if d.filed_at.isSome then
        Except.ok (⟨d.id, 0, []⟩, tbl)
      else
        let rows := remindersToCreateTz serverTz d.id d.due_date now
        if rows.isEmpty then
          Except.ok (⟨d.id, 0, []⟩, tbl)
        else if rows.any (conflictsWith tbl) then
          Except.error "Failed to create reminders: duplicate key value violates unique constraint unique_deadline_template"
        else
          Except.ok (⟨d.id, rows.length, rows⟩, tbl ++ rows)

/-- Is an `Except` outcome a success? -/
def exceptOk : Except String α → Bool
  | Except.ok _ => true
  | Except.error _ => false

/-! ### Opt-out cancellation (`src/lib/messaging/opt-out.ts`) -/

/-- A row of `gst_entities` (the columns the opt-out path reads). -/
structure Entity where
  id : Nat
  account_id : Nat
deriving DecidableEq

/-- A row of `deadlines` (the columns the opt-out path reads). -/
structure DeadlineRow where
  id : Nat
  entity_id : Nat
deriving DecidableEq

/-- Supabase `.single()`: succeeds iff the filter matches exactly one row. -/
def selectSingle (p : α → Bool) (l : List α) : Option α :=
  match l.filter p with
  | [a] => some a
  | _ => none

/-- The deadline ids reachable from a contact: deadlines of the entities of
the contact's account (the chain of selects in
`cancelPendingRemindersForContact`). -/
def deadlineIdsForAccount (accountId : Nat) (entities : List Entity)
    (deadlines : List DeadlineRow) : List Nat :=
  let entityIds := (entities.filter (fun e => e.account_id == accountId)).map Entity.id
  (deadlines.filter (fun d => d.entity_id ∈ entityIds)).map DeadlineRow.id

/-- The reminder rows `cancelPendingRemindersForContact` flips:
`deadline_id IN (...) AND status = 'pending'`. -/
def reminderCancelPred (deadlineIds : List Nat) (r : Reminder) : Bool :=
  r.deadline_id ∈ deadlineIds && r.status == ReminderStatus.pending

/-- Model of `cancelPendingRemindersForContact(contactId)`: resolve the
contact's account, its entities, their deadlines; flip every matching
`pending` reminder to `cancelled`; return the flipped count and the new
table.  The early `return 0` branches for empty entity/deadline lists
coincide with the general update (the predicate is then everywhere false). -/
def cancelPendingRemindersForContact (contactId : Nat) (contacts : List Contact)
    (entities : List Entity) (deadlines : List DeadlineRow)
    (rems : List Reminder) : Except String (Nat × List Reminder) :=
  match selectSingle (fun c => c.id == contactId) contacts with
  | none => Except.error "Failed to get contact"
  | some contact =>
      let dids := deadlineIdsForAccount contact.account_id entities deadlines
      if dids.isEmpty then Except.ok (0, rems)
      else
        Except.ok ((rems.filter (reminderCancelPred dids)).length,
          rems.map (fun r =>
            if reminderCancelPred dids r
            then { r with status := ReminderStatus.cancelled } else r))

/-- The outbox rows `cancelPendingMessagesForContact` flips:
`contact_id = contactId AND delivery_status = 'queued'`. -/
def messageCancelPred (contactId : Nat) (m : OutboxMessage) : Bool :=
  m.contact_id == contactId && m.delivery_status == DeliveryStatus.queued

/-- Model of `cancelPendingMessagesForContact(contactId)`: flip every queued
outbox row of the contact to `cancelled`; return the flipped count and the
new table. -/
def cancelPendingMessagesForContact (contactId : Nat)
    (msgs : List OutboxMessage) : Nat × List OutboxMessage :=
  ((msgs.filter (messageCancelPred contactId)).length,
   msgs.map (fun m =>
     if messageCancelPred contactId m
     then { m with delivery_status := DeliveryStatus.cancelled } else m))

/-- The combined result type of `cancelAllPendingReminders`. -/
structure CancelAllResult where
  cancelledReminders : Nat
  cancelledMessages : Nat
deriving DecidableEq

/-- Model of `cancelAllPendingReminders(contactId)`: run both cancellations
and collect the counts (a failure of the reminder leg is propagated). -/
def cancelAllPendingReminders (contactId : Nat) (contacts : List Contact)
    (entities : List Entity) (deadlines : List DeadlineRow)
    (rems : List Reminder) (msgs : List OutboxMessage) :
    Except String (CancelAllResult × List Reminder × List OutboxMessage) :=
  match cancelPendingRemindersForContact contactId contacts entities deadlines rems with
  | Except.error e => Except.error e
  | Except.ok (nr, rems2) =>
      let (nm, msgs2) := cancelPendingMessagesForContact contactId msgs
      Except.ok (⟨nr, nm⟩, rems2, msgs2)

/-! ### The standalone opt-out module (`optOutContact`, `hasWhatsAppConsent`) -/

/-- A row of the standalone module's `reminders` table (statuses are free
strings there: 'scheduled', 'queued', 'pending', ...). -/
structure VReminder where
  id : Nat
  contact_id : Nat
  status : String
  updated_at : Option Nat
deriving DecidableEq

/-- A row of the standalone module's `messages` table. -/
structure VMessage where
  id : Nat
  contact_id : Nat
  status : String
  updated_at : Option Nat
deriving DecidableEq

/-- The standalone module's `OptOutResult`. -/
structure OptOutResult where
  success : Bool
  contactUpdated : Bool
  remindersCancelled : Nat
  messagesCancelled : Nat
  error : Option String
deriving DecidableEq

/-- The consent flip applied to the contact row by `optOutContact`:
`whatsapp_consent = false`, `opt_out_at = now`, change reason recorded. -/
def applyOptOutContact (now : Nat) (reason : Option String) (c : Contact) : Contact :=
  { c with whatsapp_consent := false, opt_out_at := some now,
           consent_change_reason := some (reason.getD "User requested opt-out") }

/-- Model of `optOutContact(contactId, reason)`.  The three database writes
can each fail; `contactErr`, `remErr` and `msgErr` are those error outcomes
(an errored UPDATE mutates nothing and yields a null row set, counted as 0).
A contact-update failure aborts with `success = false`; failures of the two
cancellation updates are only logged — the function still returns
`success = true` and never rolls back the consent flip. -/
def optOutContact (contactId : Nat) (reason : Option String) (now : Nat)
    (contactErr remErr msgErr : Bool)
    (contacts : List Contact) (rems : List VReminder) (msgs : List VMessage) :
    OptOutResult × List Contact × List VReminder × List VMessage :=
  if contactErr then
    (⟨false, false, 0, 0, some "Failed to update contact"⟩, contacts, rems, msgs)
  else
    let contacts2 := contacts.map (fun c =>
      if c.id == contactId then applyOptOutContact now reason c else c)
    let remPred := fun (r : VReminder) =>
      r.contact_id == contactId && (r.status ∈ ["scheduled", "queued", "pending"])
    let nr := if remErr then 0 else (rems.filter remPred).length
    let rems2 := if remErr then rems
      else rems.map (fun r => if remPred r
        then { r with status := "cancelled", updated_at := some now } else r)
    let msgPred := fun (m : VMessage) =>
      m.contact_id == contactId && (m.status ∈ ["queued", "pending"])
    let nm := if msgErr then 0 else (msgs.filter msgPred).length
    let msgs2 := if msgErr then msgs
      else msgs.map (fun m => if msgPred m
        then { m with status := "cancelled", updated_at := some now } else m)
    (⟨true, true, nr, nm, none⟩, contacts2, rems2, msgs2)

/-- Model of `hasWhatsAppConsent(contactId)`: a database error, a missing
contact or a non-unique `.single()` match all yield `false`; otherwise the
result is `whatsapp_consent === true && opt_out_at === null`. -/
def hasWhatsAppConsent (dbErr : Bool) (contacts : List Contact) (contactId : Nat) : Bool :=
  if dbErr then false
  else
    match selectSingle (fun c => c.id == contactId) contacts with
    | none => false
    | some c => c.whatsapp_consent && c.opt_out_at.isNone

/-! ### The filing trigger (`cancel_reminders_on_deadline_filed`) -/

/-- Model of the trigger function: when `filed_at` transitions to a non-null
value distinct from the old one, flip every `pending`, unsent reminder of the
filed deadline to `cancelled` with the fixed early-filing message. -/
def cancel_reminders_on_deadline_filed (oldFiledAt newFiledAt : Option Nat)
    (deadlineId : Nat) (rems : List Reminder) : List Reminder :=
  if newFiledAt.isSome && (oldFiledAt.isNone || oldFiledAt != newFiledAt) then
    rems.map (fun r =>
      if r.deadline_id == deadlineId && r.status == ReminderStatus.pending
          && r.sent_at.isNone
      then { r with status := ReminderStatus.cancelled,
                    error_message := some "Deadline was filed early" }
      else r)
  else rems

/-! ### The deadline generator (`generateDeadlines`) -/

/-- A civil-calendar date (local). -/
structure CalDate where
  year : Nat
  month : Nat
  day : Nat
deriving DecidableEq

/-- Monotone key for comparing valid calendar dates (month ≤ 12 < 32,
day ≤ 31 < 32, so this agrees with chronological order). -/
def dateKey (dt : CalDate) : Nat := dt.year * 512 + dt.month * 32 + dt.day

def isLeapYear (y : Nat) : Bool :=
  (y % 4 == 0 && y % 100 != 0) || y % 400 == 0

def daysInMonth (y m : Nat) : Nat :=
  if m == 2 then (if isLeapYear y then 29 else 28)
  else if m == 4 || m == 6 || m == 9 || m == 11 then 30
  else 31

/-- Day of week by Zeller's congruence: 0 = Saturday, 1 = Sunday, 2 = Monday,
…, 6 = Friday. -/
def dayOfWeek (dt : CalDate) : Nat :=
  let y := if dt.month ≤ 2 then dt.year - 1 else dt.year
  let m := if dt.month ≤ 2 then dt.month + 12 else dt.month
  let k := y % 100
  let j := y / 100
  (dt.day + (13 * (m + 1)) / 5 + k + k / 4 + j / 4 + 5 * j) % 7

/-- `isWeekend` (date-fns): Saturday or Sunday. -/
def isWeekendDate (dt : CalDate) : Bool :=
  dayOfWeek dt == 0 || dayOfWeek dt == 1

/-- `addDays(date, 1)` with month/year rollover. -/
def nextDay (dt : CalDate) : CalDate :=
  if dt.day < daysInMonth dt.year dt.month then ⟨dt.year, dt.month, dt.day + 1⟩
  else if dt.month < 12 then ⟨dt.year, dt.month + 1, 1⟩
  else ⟨dt.year + 1, 1, 1⟩

/-- The `while (isWeekend)` loop of `moveToNextWorkingDay`, fuelled; a
weekend run is at most two days long, so fuel 7 is exact. -/
def moveFuel : Nat → CalDate → CalDate
  | 0, dt => dt
  | n + 1, dt => if isWeekendDate dt then moveFuel n (nextDay dt) else dt

/-- `moveToNextWorkingDay`: roll a weekend date forward to the next
non-weekend day. -/
def moveToNextWorkingDay (dt : CalDate) : CalDate := moveFuel 7 dt

/-- Filing frequency (`FilingFrequency`). -/
inductive FilingFrequency where
  | monthly
  | quarterly
deriving DecidableEq

/-- `DeadlineConfig` entries (`DEADLINE_CONFIGS`). -/
structure DeadlineConfig where
  return_type : String
  day : Nat
  frequency : FilingFrequency
deriving DecidableEq

def DEADLINE_CONFIGS : List DeadlineConfig :=
  [⟨"GSTR-1", 11, FilingFrequency.monthly⟩,
   ⟨"GSTR-3B", 20, FilingFrequency.monthly⟩,
   ⟨"GSTR-1", 13, FilingFrequency.quarterly⟩,
   ⟨"GSTR-3B", 22, FilingFrequency.quarterly⟩]

/-- Zero-based month index (months since year 0). -/
def monthIndex (y m : Nat) : Nat := y * 12 + (m - 1)

/-- Inverse of `monthIndex`. -/
def monthOfIndex (idx : Nat) : Nat × Nat := (idx / 12, idx % 12 + 1)

/-- A generated deadline draft (`GSTDeadline`; the due date is kept as a
calendar date rather than its `yyyy-MM-dd` rendering). -/
structure GSTDeadline where
  return_type : String
  period_month : Nat
  period_year : Nat
  due_date : CalDate
deriving DecidableEq

/-- `getPeriodForReturn(baseDate, frequency, monthsBack)`:
`addMonths(baseDate, -monthsBack)`, rounded for quarterly filers to the
quarter-end month. -/
def getPeriodForReturn (base : CalDate) (freq : FilingFrequency)
    (monthsBack : Nat) : Nat × Nat :=
  let p := monthOfIndex (monthIndex base.year base.month - monthsBack)
  match freq with
  | FilingFrequency.quarterly => (((p.2 - 1) / 3) * 3 + 3, p.1)
  | FilingFrequency.monthly => (p.2, p.1)

/-- `calculateDueDate(period_month, period_year, day, frequency)`: the due
date sits in the month after the period's month, on the configured day,
rolled forward off weekends. -/
def calculateDueDate (periodMonth periodYear day : Nat)
    (_freq : FilingFrequency) : CalDate :=
  let next := monthOfIndex (monthIndex periodYear periodMonth + 1)
  moveToNextWorkingDay ⟨next.1, next.2, day⟩

/-- Model of `generateDeadlines(filingFrequency, startDate)`: for each of the
12 monthly (or 4 quarterly) iterations, take the period `monthsBack`
iterations **back** from the start month, compute its due date, keep it only
when it does not precede the start of the current month, and finally sort by
due date ascending. -/
def generateDeadlines (freq : FilingFrequency) (startDate : CalDate) :
    List GSTDeadline :=
  let cur : CalDate := ⟨startDate.year, startDate.month, 1⟩
  let periodsToGenerate := match freq with
    | FilingFrequency.monthly => 12
    | FilingFrequency.quarterly => 4
  let relevantConfigs := DEADLINE_CONFIGS.filter (fun c => c.frequency == freq)
  let drafts := (List.range periodsToGenerate).map (fun i =>
    let monthsBack := match freq with
      | FilingFrequency.monthly => i
      | FilingFrequency.quarterly => i * 3
    relevantConfigs.filterMap (fun cfg =>
      let period := getPeriodForReturn cur freq monthsBack
      let due := calculateDueDate period.1 period.2 cfg.day freq
      if dateKey cur ≤ dateKey due then
        some ⟨cfg.return_type, period.1, period.2, due⟩
      else none))
  sortByKey (fun d => dateKey d.due_date) drafts.flatten

/-! ### Lemmas about the keyed insertion sort -/

theorem mem_insertByKey {k : α → Nat} {a b : α} {l : List α} :
    a ∈ insertByKey k b l ↔ a = b ∨ a ∈ l := by
  induction l with
  | nil => simp [insertByKey]
  | cons x xs ih =>
      by_cases h : k b ≤ k x
      · simp [insertByKey, h]
      · simp [insertByKey, h, ih]
        tauto

theorem mem_sortByKey {k : α → Nat} {a : α} {l : List α} :
    a ∈ sortByKey k l ↔ a ∈ l := by
  induction l with
  | nil => simp [sortByKey]
  | cons x xs ih => simp [sortByKey, mem_insertByKey, ih]

theorem length_insertByKey {k : α → Nat} {a : α} {l : List α} :
    (insertByKey k a l).length = l.length + 1 := by
  induction l with
  | nil => rfl
  | cons x xs ih =>
      by_cases h : k a ≤ k x
      · simp [insertByKey, h]
      · simp [insertByKey, h, ih]

theorem length_sortByKey {k : α → Nat} {l : List α} :
    (sortByKey k l).length = l.length := by
  induction l with
  | nil => rfl
  | cons x xs ih => simp [sortByKey, length_insertByKey, ih]

theorem pairwise_insertByKey {k : α → Nat} {a : α} {l : List α}
    (h : l.Pairwise (fun x y => k x ≤ k y)) :
    (insertByKey k a l).Pairwise (fun x y => k x ≤ k y) := by
  induction l with
  | nil => simp [insertByKey]
  | cons x xs ih =>
      rcases List.pairwise_cons.mp h with ⟨hx, hxs⟩
      by_cases hle : k a ≤ k x
      · rw [insertByKey, if_pos hle]
        refine List.pairwise_cons.mpr ⟨?_, h⟩
        intro y hy
        rcases List.mem_cons.mp hy with rfl | hy
        · exact hle
        · exact le_trans hle (hx y hy)
      · rw [insertByKey, if_neg hle]
        refine List.pairwise_cons.mpr ⟨?_, ih hxs⟩
        intro y hy
        rcases mem_insertByKey.mp hy with rfl | hy
        · exact le_of_not_le hle
        · exact hx y hy

theorem pairwise_sortByKey {k : α → Nat} {l : List α} :
    (sortByKey k l).Pairwise (fun x y => k x ≤ k y) := by
  induction l with
  | nil => simp [sortByKey]
  | cons x xs ih => exact pairwise_insertByKey ih

/-! ### Lemmas about the atomic claim function -/

theorem eligibleAt_iff {now : Nat} {r : Reminder} :
    eligibleAt now r = true ↔
      r.status = ReminderStatus.pending ∧ r.claimed_at = none ∧ r.send_at ≤ now := by
  simp [eligibleAt, Option.isNone_iff_eq_none, and_assoc]

theorem claim_rows_ids {w : String} {b now : Nat} {qs : List Reminder} :
    (claim_pending_reminders w b now qs).rows.map ClaimedRow.id
      = ((sortByKey Reminder.send_at (qs.filter (eligibleAt now))).take b).map Reminder.id := by
  simp only [claim_pending_reminders, List.map_map]
  rfl

theorem claim_queue_eq {w : String} {b now : Nat} {qs : List Reminder} :
    (claim_pending_reminders w b now qs).queue
      = qs.map (fun r =>
          if r.id ∈ (claim_pending_reminders w b now qs).rows.map ClaimedRow.id
          then stampClaim now w r else r) := by
  rw [claim_rows_ids]
  rfl

theorem claim_rows_sound {w : String} {b now : Nat} {qs : List Reminder} {row : ClaimedRow}
    (h : row ∈ (claim_pending_reminders w b now qs).rows) :
    ∃ r, r ∈ qs ∧ eligibleAt now r = true ∧ row = r.toClaimedRow := by
  simp only [claim_pending_reminders, List.mem_map] at h
  rcases h with ⟨r, hr, rfl⟩
  have hr2 : r ∈ qs.filter (eligibleAt now) :=
    mem_sortByKey.mp (List.take_subset _ _ hr)
  rcases List.mem_filter.mp hr2 with ⟨hq, he⟩
  exact ⟨r, hq, he, rfl⟩

theorem claim_queue_mem {w : String} {b now : Nat} {qs : List Reminder} {r2 : Reminder}
    (h : r2 ∈ (claim_pending_reminders w b now qs).queue) :
    ∃ r, r ∈ qs ∧
      r2 = (if r.id ∈ ((claim_pending_reminders w b now qs).rows.map ClaimedRow.id)
            then stampClaim now w r else r) := by
  rw [claim_queue_eq] at h
  rcases List.mem_map.mp h with ⟨r, hr, hfr⟩
  exact ⟨r, hr, hfr.symm⟩

theorem claim_queue_claimed {w : String} {b now : Nat} {qs : List Reminder} {r2 : Reminder}
    (hq : r2 ∈ (claim_pending_reminders w b now qs).queue)
    (hid : r2.id ∈ (claim_pending_reminders w b now qs).rows.map ClaimedRow.id) :
    r2.claimed_at = some now := by
  rcases claim_queue_mem hq with ⟨r, _, h2⟩
  by_cases hmem : r.id ∈ ((claim_pending_reminders w b now qs).rows.map ClaimedRow.id)
  · rw [if_pos hmem] at h2
    rw [h2]
    rfl
  · rw [if_neg hmem] at h2
    subst h2
    exact absurd hid hmem

theorem claim_queue_eligible_unpicked {w : String} {b now : Nat} {qs : List Reminder}
    {r2 : Reminder}
    (hq : r2 ∈ (claim_pending_reminders w b now qs).queue)
    (he : eligibleAt now r2 = true) :
    r2 ∈ qs ∧ r2.id ∉ (claim_pending_reminders w b now qs).rows.map ClaimedRow.id := by
  rcases claim_queue_mem hq with ⟨r, hr, h2⟩
  by_cases hmem : r.id ∈ ((claim_pending_reminders w b now qs).rows.map ClaimedRow.id)
  · rw [if_pos hmem] at h2
    have : r2.claimed_at = some now := by rw [h2]; rfl
    rw [eligibleAt_iff] at he
    rw [this] at he
    exact absurd he.2.1 (by simp)
  · rw [if_neg hmem] at h2
    subst h2
    exact ⟨hr, hmem⟩

theorem claim_rows_complete {w : String} {b now : Nat} {qs : List Reminder}
    (hlen : (qs.filter (eligibleAt now)).length ≤ b) :
    ∀ r ∈ qs, eligibleAt now r = true →
      r.toClaimedRow ∈ (claim_pending_reminders w b now qs).rows := by
  intro r hr he
  have hsortlen : (sortByKey Reminder.send_at (qs.filter (eligibleAt now))).length ≤ b := by
    rw [length_sortByKey]; exact hlen
  have htake : (sortByKey Reminder.send_at (qs.filter (eligibleAt now))).take b
      = sortByKey Reminder.send_at (qs.filter (eligibleAt now)) :=
    List.take_of_length_le hsortlen
  simp only [claim_pending_reminders, List.mem_map]
  refine ⟨r, ?_, rfl⟩
  rw [htake]
  exact mem_sortByKey.mpr (List.mem_filter.mpr ⟨hr, he⟩)

theorem claim_rows_length {w : String} {b now : Nat} {qs : List Reminder} :
    (claim_pending_reminders w b now qs).rows.length
      = min b (qs.filter (eligibleAt now)).length := by
  simp [claim_pending_reminders, length_sortByKey]

theorem claim_rows_sorted {w : String} {b now : Nat} {qs : List Reminder} :
    (claim_pending_reminders w b now qs).rows.Pairwise
      (fun a c => a.send_at ≤ c.send_at) := by
  simp only [claim_pending_reminders]
  rw [List.pairwise_map]
  exact (pairwise_sortByKey).sublist (List.take_sublist _ _)

theorem claim_stamps_picked {w : String} {b now : Nat} {qs : List Reminder} {r : Reminder}
    (hr : r ∈ qs)
    (hid : r.id ∈ (claim_pending_reminders w b now qs).rows.map ClaimedRow.id) :
    stampClaim now w r ∈ (claim_pending_reminders w b now qs).queue := by
  rw [claim_queue_eq]
  exact List.mem_map.mpr ⟨r, hr, by rw [if_pos hid]⟩

theorem claim_keeps_unpicked {w : String} {b now : Nat} {qs : List Reminder} {r : Reminder}
    (hr : r ∈ qs)
    (hid : r.id ∉ (claim_pending_reminders w b now qs).rows.map ClaimedRow.id) :
    r ∈ (claim_pending_reminders w b now qs).queue := by
  rw [claim_queue_eq]
  exact List.mem_map.mpr ⟨r, hr, by rw [if_neg hid]⟩

theorem claim_queue_ids {w : String} {b now : Nat} {qs : List Reminder} :
    (claim_pending_reminders w b now qs).queue.map Reminder.id = qs.map Reminder.id := by
  rw [claim_queue_eq, List.map_map]
  apply List.map_congr_left
  intro r _
  by_cases h : r.id ∈ (claim_pending_reminders w b now qs).rows.map ClaimedRow.id
  · simp only [Function.comp_apply, if_pos h]
    rfl
  · simp only [Function.comp_apply, if_neg h]

/-! ### Claim theorems -/

/-- C3: for every queue state, worker id, batch size and time `now`, the
claim operation selects only reminders with status `pending`, `claimed_at`
null and `send_at ≤ now` (and all of them when they fit the batch), at most
`batchSize` of them (exactly `min batchSize #eligible`), in `send_at`
ascending order; it stamps `claimed_at = now` and `claimed_by = workerId` on
the selected rows in the same atomic step, returns exactly the claimed set,
and modifies no other row (non-selected rows survive unchanged, and the
queue's row ids are unchanged). -/
theorem C3_claim_atomic_select_and_stamp (w : String) (b now : Nat) (qs : List Reminder) :
    (∀ row ∈ (claim_pending_reminders w b now qs).rows,
        ∃ r, r ∈ qs ∧ eligibleAt now r = true ∧ row = r.toClaimedRow) ∧
    (claim_pending_reminders w b now qs).rows.length
        = min b (qs.filter (eligibleAt now)).length ∧
    ((qs.filter (eligibleAt now)).length ≤ b →
        ∀ r ∈ qs, eligibleAt now r = true →
          r.toClaimedRow ∈ (claim_pending_reminders w b now qs).rows) ∧
    (claim_pending_reminders w b now qs).rows.Pairwise
        (fun a c => a.send_at ≤ c.send_at) ∧
    (∀ r ∈ qs, r.id ∈ (claim_pending_reminders w b now qs).rows.map ClaimedRow.id →
        stampClaim now w r ∈ (claim_pending_reminders w b now qs).queue) ∧
    (∀ r ∈ qs, r.id ∉ (claim_pending_reminders w b now qs).rows.map ClaimedRow.id →
        r ∈ (claim_pending_reminders w b now qs).queue) ∧
    (claim_pending_reminders w b now qs).queue.map Reminder.id = qs.map Reminder.id :=
  ⟨fun _ h => claim_rows_sound h,
   claim_rows_length,
   fun h => claim_rows_complete h,
   claim_rows_sorted,
   fun _ hr hid => claim_stamps_picked hr hid,
   fun _ hr hid => claim_keeps_unpicked hr hid,
   claim_queue_ids⟩

/-- C3 witness: the theorem applied to a concrete one-element queue whose
reminder is pending, unclaimed and due. -/
theorem C3_claim_atomic_select_and_stamp_witness :
    (([(⟨1, 10, "gst_deadline_tminus3", 30, none, ReminderStatus.pending, none, none,
        none⟩ : Reminder)].filter (eligibleAt 100)).length ≤ 5) ∧
    (⟨1, 10, "gst_deadline_tminus3", 30, none, ReminderStatus.pending, none, none,
        none⟩ : Reminder).toClaimedRow
      ∈ (claim_pending_reminders "w" 5 100
          [⟨1, 10, "gst_deadline_tminus3", 30, none, ReminderStatus.pending, none, none,
            none⟩]).rows :=
  ⟨by decide,
   (C3_claim_atomic_select_and_stamp "w" 5 100
      [⟨1, 10, "gst_deadline_tminus3", 30, none, ReminderStatus.pending, none, none,
        none⟩]).2.2.1 (by decide) _ (by decide) (by decide)⟩

/-- C1: two claim calls with the same batch size against the same queue
(their concurrent execution serializes through the atomic
`UPDATE ... FOR UPDATE SKIP LOCKED`) never return a common reminder id; every
returned id belongs to an eligible reminder (pending, unclaimed,
`send_at ≤ now`); and when the eligible set fits in one batch, the first call
returns the whole eligible set and the second returns nothing — so their
union is the eligible set and at most one worker processes any reminder. -/
theorem C1_claim_exclusivity (w1 w2 : String) (b now : Nat) (qs : List Reminder) :
    (∀ i ∈ (claimTwice w1 w2 b now qs).1.rows.map ClaimedRow.id,
        i ∉ (claimTwice w1 w2 b now qs).2.rows.map ClaimedRow.id) ∧
    (∀ i, (i ∈ (claimTwice w1 w2 b now qs).1.rows.map ClaimedRow.id ∨
           i ∈ (claimTwice w1 w2 b now qs).2.rows.map ClaimedRow.id) →
        ∃ r, r ∈ qs ∧ r.id = i ∧ eligibleAt now r = true) ∧
    ((qs.filter (eligibleAt now)).length ≤ b →
        (∀ r ∈ qs, eligibleAt now r = true →
            r.id ∈ (claimTwice w1 w2 b now qs).1.rows.map ClaimedRow.id) ∧
        (claimTwice w1 w2 b now qs).2.rows = []) := by
  refine ⟨?_, ?_, ?_⟩
  · intro i hi1 hi2
    rcases List.mem_map.mp hi2 with ⟨row2, hrow2, hid2⟩
    rcases claim_rows_sound hrow2 with ⟨r2, hr2, he2, hproj⟩
    have hidr2 : r2.id = i := by rw [← hid2, hproj]; rfl
    have hclaimed : r2.claimed_at = some now := by
      refine claim_queue_claimed hr2 ?_
      rw [hidr2]
      exact hi1
    have hnone : r2.claimed_at = none := (eligibleAt_iff.mp he2).2.1
    rw [hclaimed] at hnone
    exact Option.noConfusion hnone
  · intro i hi
    rcases hi with hi | hi
    · rcases List.mem_map.mp hi with ⟨row, hrow, hid⟩
      rcases claim_rows_sound hrow with ⟨r, hr, he, hproj⟩
      refine ⟨r, hr, ?_, he⟩
      rw [← hid, hproj]
      rfl
    · rcases List.mem_map.mp hi with ⟨row2, hrow2, hid2⟩
      rcases claim_rows_sound hrow2 with ⟨r2, hr2, he2, hproj⟩
      rcases claim_queue_eligible_unpicked hr2 he2 with ⟨hr2qs, _⟩
      refine ⟨r2, hr2qs, ?_, he2⟩
      rw [← hid2, hproj]
      rfl
  · intro hlen
    have hcover : ∀ r ∈ qs, eligibleAt now r = true →
        r.id ∈ (claimTwice w1 w2 b now qs).1.rows.map ClaimedRow.id := by
      intro r hr he
      exact List.mem_map.mpr ⟨r.toClaimedRow, claim_rows_complete hlen r hr he, rfl⟩
    refine ⟨hcover, ?_⟩
    rw [List.eq_nil_iff_forall_not_mem]
    intro row2 hrow2
    rcases claim_rows_sound hrow2 with ⟨r2, hr2, he2, _⟩
    rcases claim_queue_eligible_unpicked hr2 he2 with ⟨hr2qs, hnot⟩
    exact hnot (hcover r2 hr2qs he2)

/-- C1 witness: the theorem applied to a concrete two-element queue, with
the batch-fit hypothesis discharged: both eligible reminders go to the first
call and the second call returns nothing. -/
theorem C1_claim_exclusivity_witness :
    (([(⟨1, 10, "a", 30, none, ReminderStatus.pending, none, none, none⟩ : Reminder),
       ⟨2, 10, "b", 40, none, ReminderStatus.pending, none, none, none⟩].filter
          (eligibleAt 100)).length ≤ 5) ∧
    (claimTwice "w1" "w2" 5 100
       [⟨1, 10, "a", 30, none, ReminderStatus.pending, none, none, none⟩,
        ⟨2, 10, "b", 40, none, ReminderStatus.pending, none, none, none⟩]).2.rows = [] :=
  ⟨by decide,
   ((C1_claim_exclusivity "w1" "w2" 5 100
       [⟨1, 10, "a", 30, none, ReminderStatus.pending, none, none, none⟩,
        ⟨2, 10, "b", 40, none, ReminderStatus.pending, none, none, none⟩]).2.2
      (by decide)).2⟩

/-- C2: when the drain worker processes a claimed reminder whose fetched
deadline has no eligible contact in the claim's sense (consent granted and
opt-out timestamp null) — in particular after an opt-out that happened
between scheduling and draining — the reminder is marked `cancelled`
(`markReminderSkipped`), `skipped` is incremented, `sent` is untouched and
the outbox gains zero messages; and a contact that went through the
`optOutContact` consent flip is never eligible in that sense. -/
theorem C2_consent_recheck_at_send (rem : ClaimedRow) (d : DeadlineFetch)
    (st : PipelineState) (res : SendRemindersResult) (now : Nat) (enqErr : Bool)
    (hcon : ∀ c ∈ d.contacts, ¬(c.whatsapp_consent = true ∧ c.opt_out_at = none)) :
    processReminder rem (some d) st res now enqErr
      = ({ st with reminders := markReminderSkipped rem.id now st.reminders },
         { res with skipped := res.skipped + 1 }) ∧
    (processReminder rem (some d) st res now enqErr).1.outbox = st.outbox ∧
    (processReminder rem (some d) st res now enqErr).2.sent = res.sent ∧
    (∀ r ∈ st.reminders, r.id = rem.id →
        { r with status := ReminderStatus.cancelled, sent_at := some now,
                 error_message := some "Deadline already filed or no eligible contact" }
          ∈ (processReminder rem (some d) st res now enqErr).1.reminders) ∧
    (∀ c (t : Nat) (reason : Option String),
        ¬((applyOptOutContact t reason c).whatsapp_consent = true ∧
          (applyOptOutContact t reason c).opt_out_at = none)) := by
  have hfind : findEligibleContact d.contacts = none := by
    rw [findEligibleContact, List.find?_eq_none]
    intro c hc hb
    simp only [Bool.and_eq_true, Option.isNone_iff_eq_none] at hb
    exact hcon c hc ⟨hb.1.1, hb.2⟩
  have hmain : processReminder rem (some d) st res now enqErr
      = ({ st with reminders := markReminderSkipped rem.id now st.reminders },
         { res with skipped := res.skipped + 1 }) := by
    by_cases hf : d.filed_at.isSome
    · simp only [processReminder, hf, if_true]
    · simp only [processReminder, hfind]
      split <;> rfl
  refine ⟨hmain, by rw [hmain], by rw [hmain], ?_, ?_⟩
  · intro r hr hid
    rw [hmain]
    exact List.mem_map.mpr ⟨r, hr, by simp [hid]⟩
  · intro c t reason hc
    simp [applyOptOutContact] at hc

/-- C2 witness: the theorem applied to a concrete claimed reminder whose
deadline's only contact opted out (consent revoked, opt-out timestamp set)
after the reminder was scheduled. -/
theorem C2_consent_recheck_at_send_witness :
    (∀ c ∈ (⟨10, "27AAAAA0000A1Z5", "GSTR-1", "2024-02-20", none,
        [⟨5, 2, some "919999999999", false, some 77, some "User requested opt-out"⟩]⟩ :
          DeadlineFetch).contacts,
        ¬(c.whatsapp_consent = true ∧ c.opt_out_at = none)) ∧
    (processReminder ⟨1, 10, "gst_deadline_dueday", 90⟩
        (some ⟨10, "27AAAAA0000A1Z5", "GSTR-1", "2024-02-20", none,
          [⟨5, 2, some "919999999999", false, some 77, some "User requested opt-out"⟩]⟩)
        ⟨[⟨1, 10, "gst_deadline_dueday", 90, none, ReminderStatus.pending, none,
            some 100, some "w"⟩], []⟩
        ⟨1, 0, 0, 0, []⟩ 100 false).1.outbox = [] :=
  ⟨by decide,
   (C2_consent_recheck_at_send ⟨1, 10, "gst_deadline_dueday", 90⟩
      ⟨10, "27AAAAA0000A1Z5", "GSTR-1", "2024-02-20", none,
        [⟨5, 2, some "919999999999", false, some 77, some "User requested opt-out"⟩]⟩
      ⟨[⟨1, 10, "gst_deadline_dueday", 90, none, ReminderStatus.pending, none,
          some 100, some "w"⟩], []⟩
      ⟨1, 0, 0, 0, []⟩ 100 false (by decide)).2.1⟩

/-! ### Lemmas about the scheduler -/

theorem remindersToCreateTz_eq_spec (serverTz deadlineId dueDate now : Nat) :
    remindersToCreateTz serverTz deadlineId dueDate now
      = (specCandidatesInTz serverTz dueDate now).map
          (fun p => ⟨deadlineId, p.1, p.2, ReminderStatus.pending⟩) := by
  unfold remindersToCreateTz specCandidatesInTz
  by_cases h3 : now < atNineOffset serverTz (dueDate - 3 * minutesPerDay) <;>
    by_cases h1 : now < atNineOffset serverTz (dueDate - minutesPerDay) <;>
      by_cases h0 : now < atNineOffset serverTz dueDate <;>
        simp [h3, h1, h0]

theorem remindersToCreateTz_deadline_id {serverTz deadlineId dueDate now : Nat}
    {r : ReminderInsert}
    (h : r ∈ remindersToCreateTz serverTz deadlineId dueDate now) :
    r.deadline_id = deadlineId := by
  rw [remindersToCreateTz_eq_spec] at h
  rcases List.mem_map.mp h with ⟨p, _, rfl⟩
  rfl

theorem remindersToCreateTz_no_conflict {serverTz deadlineId dueDate now : Nat}
    {tbl : List ReminderInsert} (hnc : ∀ r ∈ tbl, r.deadline_id ≠ deadlineId) :
    (remindersToCreateTz serverTz deadlineId dueDate now).any (conflictsWith tbl)
      = false := by
  rw [List.any_eq_false]
  intro r hr hb
  rw [conflictsWith, List.any_eq_true] at hb
  rcases hb with ⟨t, ht, htb⟩
  simp only [Bool.and_eq_true, beq_iff_eq] at htb
  exact hnc t ht (htb.1.trans (remindersToCreateTz_deadline_id hr))

/-- C4 counterexample: with the server runtime on UTC (offset 0) and the
entity's configured timezone at the schema default `Asia/Kolkata` (+330,
`accounts.timezone`, which the scheduler never reads), the unfiled deadline
due at UTC midnight of day 100 gets its reminders persisted at timestamps
140220/143100/144540 — each is 09:00 wall-clock in the **server's** timezone
(144540 is 09:00 UTC) but not 09:00 in the entity's configured timezone
(09:00 IST on the due day would be 144210) — refuting "each at 09:00 local
time in the entity's configured timezone". -/
theorem C4_counterexample :
    createReminderScheduleTz 0 (some ⟨1, 144000, none⟩) 0 []
      = Except.ok
          (⟨1, 3,
            [⟨1, "gst_deadline_tminus3", 140220, ReminderStatus.pending⟩,
             ⟨1, "gst_deadline_tminus1", 143100, ReminderStatus.pending⟩,
             ⟨1, "gst_deadline_dueday", 144540, ReminderStatus.pending⟩]⟩,
           [⟨1, "gst_deadline_tminus3", 140220, ReminderStatus.pending⟩,
            ⟨1, "gst_deadline_tminus1", 143100, ReminderStatus.pending⟩,
            ⟨1, "gst_deadline_dueday", 144540, ReminderStatus.pending⟩]) ∧
    isNineInTz 0 144540 = true ∧
    isNineInTz kolkataOffset 144540 = false ∧
    atNineOffset kolkataOffset 144000 = 144210 ∧
    (144540 : Nat) ≠ 144210 :=
  ⟨rfl, rfl, rfl, rfl, by decide⟩

/-- C4 (amended): `createReminderScheduleTz` on an already-filed deadline
creates zero reminders and returns the empty result; on an unfiled deadline
(against a table with no reminders of that deadline yet) it persists with
status `pending` exactly the candidates due−3d, due−1d and due-day pinned to
09:00 in the **server runtime's** timezone — not the entity's configured
`accounts.timezone`, which the code never reads — keeping those strictly in
the future and appending them to the table; this holds for every server
offset. -/
theorem C4_scheduler_candidates_server_tz (serverTz : Nat) (d : DeadlineRec)
    (now : Nat) (tbl : List ReminderInsert) :
    (d.filed_at.isSome = true →
        createReminderScheduleTz serverTz (some d) now tbl
          = Except.ok (⟨d.id, 0, []⟩, tbl)) ∧
    (d.filed_at = none →
      (∀ r ∈ tbl, r.deadline_id ≠ d.id) →
        createReminderScheduleTz serverTz (some d) now tbl
          = Except.ok (⟨d.id, (specCandidatesInTz serverTz d.due_date now).length,
              (specCandidatesInTz serverTz d.due_date now).map
                (fun p => ⟨d.id, p.1, p.2, ReminderStatus.pending⟩)⟩,
              tbl ++ (specCandidatesInTz serverTz d.due_date now).map
                (fun p => ⟨d.id, p.1, p.2, ReminderStatus.pending⟩))) := by
  constructor
  · intro hf
    simp [createReminderScheduleTz, hf]
  · intro hf hnc
    have hfs : d.filed_at.isSome = false := by rw [hf]; rfl
    have heq := remindersToCreateTz_eq_spec serverTz d.id d.due_date now
    have hlen : (remindersToCreateTz serverTz d.id d.due_date now).length
        = (specCandidatesInTz serverTz d.due_date now).length := by
      rw [heq]; exact List.length_map _ _
    rw [← heq, ← hlen]
    by_cases he : (remindersToCreateTz serverTz d.id d.due_date now).isEmpty
    · have hnil : remindersToCreateTz serverTz d.id d.due_date now = [] :=
        List.isEmpty_iff.mp he
      simp [createReminderScheduleTz, hfs, hnil]
    · have hanyf := @remindersToCreateTz_no_conflict serverTz d.id d.due_date now tbl hnc
      simp [createReminderScheduleTz, hfs, he, hanyf]

/-- C4 (amended) witness: the theorem applied on a UTC server to a concrete
filed deadline (empty result) and a concrete unfiled deadline due at UTC
midnight of day 100 with `now = 0` (all three candidates survive and are
appended). -/
theorem C4_scheduler_candidates_server_tz_witness :
    ((⟨2, 144000, some 5⟩ : DeadlineRec).filed_at.isSome = true) ∧
    createReminderScheduleTz 0 (some ⟨2, 144000, some 5⟩) 0 []
      = Except.ok (⟨2, 0, []⟩, []) ∧
    ((⟨1, 144000, none⟩ : DeadlineRec).filed_at = none) ∧
    (∀ r ∈ ([] : List ReminderInsert), r.deadline_id ≠ 1) ∧
    createReminderScheduleTz 0 (some ⟨1, 144000, none⟩) 0 []
      = Except.ok (⟨1, (specCandidatesInTz 0 144000 0).length,
          (specCandidatesInTz 0 144000 0).map
            (fun p => ⟨1, p.1, p.2, ReminderStatus.pending⟩)⟩,
          [] ++ (specCandidatesInTz 0 144000 0).map
            (fun p => ⟨1, p.1, p.2, ReminderStatus.pending⟩)) :=
  ⟨rfl,
   (C4_scheduler_candidates_server_tz 0 ⟨2, 144000, some 5⟩ 0 []).1 rfl,
   rfl,
   by decide,
   (C4_scheduler_candidates_server_tz 0 ⟨1, 144000, none⟩ 0 []).2 rfl (by decide)⟩

theorem conflictsWith_self {tbl : List ReminderInsert} {r : ReminderInsert}
    (h : r ∈ tbl) : conflictsWith tbl r = true := by
  rw [conflictsWith, List.any_eq_true]
  exact ⟨r, h, by simp⟩

/-- C5 counterexample: for the deadline due on local day 100 with `now = 0`,
the first `createReminderSchedule` call succeeds and persists three pending
reminders, but the second call on the resulting table raises the
unique-constraint error instead of being a silent no-op — refuting "the
second call does not raise an error on the conflict". -/
theorem C5_counterexample :
    createReminderSchedule (some ⟨1, 144000, none⟩) 0 []
      = Except.ok
          (⟨1, 3,
            [⟨1, "gst_deadline_tminus3", 140220, ReminderStatus.pending⟩,
             ⟨1, "gst_deadline_tminus1", 143100, ReminderStatus.pending⟩,
             ⟨1, "gst_deadline_dueday", 144540, ReminderStatus.pending⟩]⟩,
           [⟨1, "gst_deadline_tminus3", 140220, ReminderStatus.pending⟩,
            ⟨1, "gst_deadline_tminus1", 143100, ReminderStatus.pending⟩,
            ⟨1, "gst_deadline_dueday", 144540, ReminderStatus.pending⟩]) ∧
    createReminderSchedule (some ⟨1, 144000, none⟩) 0
        [⟨1, "gst_deadline_tminus3", 140220, ReminderStatus.pending⟩,
         ⟨1, "gst_deadline_tminus1", 143100, ReminderStatus.pending⟩,
         ⟨1, "gst_deadline_dueday", 144540, ReminderStatus.pending⟩]
      = Except.error "Failed to create reminders: duplicate key value violates unique constraint unique_deadline_template" :=
  ⟨rfl, rfl⟩

/-- C5 (amended): a second `createReminderSchedule` call for the same
deadline with the same clock, after a first call that created at least one
reminder, persists zero new rows — but not silently: the plain insert hits
the `unique_deadline_template` constraint and the call raises the duplicate
error (only the batch wrapper `createReminderSchedules` swallows it). -/
theorem C5_second_call_raises (d : DeadlineRec) (now : Nat)
    (tbl tbl2 : List ReminderInsert) (res : ScheduleResult)
    (h1 : createReminderSchedule (some d) now tbl = Except.ok (res, tbl2))
    (h2 : res.reminders_created ≠ 0) :
    createReminderSchedule (some d) now tbl2
      = Except.error "Failed to create reminders: duplicate key value violates unique constraint unique_deadline_template" := by
  simp only [createReminderSchedule] at h1 ⊢
  by_cases hf : d.filed_at.isSome = true
  · rw [if_pos hf] at h1
    simp only [Except.ok.injEq, Prod.mk.injEq] at h1
    rw [← h1.1] at h2
    exact absurd rfl h2
  · rw [if_neg hf] at h1
    rw [if_neg hf]
    by_cases he : (remindersToCreate d.id d.due_date now).isEmpty = true
    · rw [if_pos he] at h1
      simp only [Except.ok.injEq, Prod.mk.injEq] at h1
      rw [← h1.1] at h2
      exact absurd rfl h2
    · rw [if_neg he] at h1
      rw [if_neg he]
      by_cases hc : (remindersToCreate d.id d.due_date now).any (conflictsWith tbl) = true
      · rw [if_pos hc] at h1
        exact Except.noConfusion h1
      · rw [if_neg hc] at h1
        simp only [Except.ok.injEq, Prod.mk.injEq] at h1
        have htbl2 : tbl2 = tbl ++ remindersToCreate d.id d.due_date now := h1.2.symm
        have hne : remindersToCreate d.id d.due_date now ≠ [] := by
          intro hn
          exact he (by rw [hn]; rfl)
        rcases List.exists_mem_of_ne_nil _ hne with ⟨r, hr⟩
        have hany2 : (remindersToCreate d.id d.due_date now).any (conflictsWith tbl2) = true := by
          rw [List.any_eq_true]
          refine ⟨r, hr, conflictsWith_self ?_⟩
          rw [htbl2]
          exact List.mem_append_right _ hr
        rw [if_pos hany2]

/-- C5 (amended) witness: the amended theorem applied to the concrete
first call of the counterexample. -/
theorem C5_second_call_raises_witness :
    createReminderSchedule (some ⟨1, 144000, none⟩) 0 []
      = Except.ok
          (⟨1, 3,
            [⟨1, "gst_deadline_tminus3", 140220, ReminderStatus.pending⟩,
             ⟨1, "gst_deadline_tminus1", 143100, ReminderStatus.pending⟩,
             ⟨1, "gst_deadline_dueday", 144540, ReminderStatus.pending⟩]⟩,
           [⟨1, "gst_deadline_tminus3", 140220, ReminderStatus.pending⟩,
            ⟨1, "gst_deadline_tminus1", 143100, ReminderStatus.pending⟩,
            ⟨1, "gst_deadline_dueday", 144540, ReminderStatus.pending⟩]) ∧
    ((⟨1, 3,
        [⟨1, "gst_deadline_tminus3", 140220, ReminderStatus.pending⟩,
         ⟨1, "gst_deadline_tminus1", 143100, ReminderStatus.pending⟩,
         ⟨1, "gst_deadline_dueday", 144540, ReminderStatus.pending⟩]⟩ :
          ScheduleResult).reminders_created ≠ 0) ∧
    createReminderSchedule (some ⟨1, 144000, none⟩) 0
        [⟨1, "gst_deadline_tminus3", 140220, ReminderStatus.pending⟩,
         ⟨1, "gst_deadline_tminus1", 143100, ReminderStatus.pending⟩,
         ⟨1, "gst_deadline_dueday", 144540, ReminderStatus.pending⟩]
      = Except.error "Failed to create reminders: duplicate key value violates unique constraint unique_deadline_template" :=
  ⟨rfl, by decide,
   C5_second_call_raises ⟨1, 144000, none⟩ 0 [] _ _ rfl (by decide)⟩

theorem cancelPendingReminders_eq {contactId : Nat} {contacts : List Contact}
    {entities : List Entity} {deadlines : List DeadlineRow} {rems : List Reminder}
    {contact : Contact}
    (hc : selectSingle (fun c => c.id == contactId) contacts = some contact) :
    cancelPendingRemindersForContact contactId contacts entities deadlines rems
      = Except.ok
          ((rems.filter (reminderCancelPred
              (deadlineIdsForAccount contact.account_id entities deadlines))).length,
           rems.map (fun r =>
             if reminderCancelPred
                 (deadlineIdsForAccount contact.account_id entities deadlines) r
             then { r with status := ReminderStatus.cancelled } else r)) := by
  simp only [cancelPendingRemindersForContact, hc]
  by_cases hd : (deadlineIdsForAccount contact.account_id entities deadlines).isEmpty = true
  · have hnil : deadlineIdsForAccount contact.account_id entities deadlines = [] :=
      List.isEmpty_iff.mp hd
    rw [if_pos hd, hnil]
    have hfil : List.filter (reminderCancelPred []) rems = [] := by
      rw [List.filter_eq_nil_iff]
      intro a _
      simp [reminderCancelPred]
    simp [reminderCancelPred, hfil]
  · rw [if_neg hd]

/-- C6: the opt-out cancellation (`cancelAllPendingReminders`, i.e. the
composition of `cancelPendingRemindersForContact` and
`cancelPendingMessagesForContact`) flips to `cancelled` exactly the `pending`
reminders of the contact's deadlines and the `queued` outbox messages of the
contact; reminders in `sent`/`failed`/`cancelled` state, reminders of other
accounts' deadlines, messages in `sent`/`delivered`/`read`/`failed`/
`cancelled` state and other contacts' messages survive unchanged; the
returned counts are the numbers of flipped rows. -/
theorem C6_optout_cancels_only_pending (contactId : Nat) (contacts : List Contact)
    (entities : List Entity) (deadlines : List DeadlineRow)
    (rems : List Reminder) (msgs : List OutboxMessage)
    (contact : Contact) (result : CancelAllResult)
    (rems2 : List Reminder) (msgs2 : List OutboxMessage)
    (hc : selectSingle (fun c => c.id == contactId) contacts = some contact)
    (hout : cancelAllPendingReminders contactId contacts entities deadlines rems msgs
        = Except.ok (result, rems2, msgs2)) :
    (∀ r ∈ rems,
        reminderCancelPred (deadlineIdsForAccount contact.account_id entities deadlines) r
            = true →
        { r with status := ReminderStatus.cancelled } ∈ rems2) ∧
    (∀ r ∈ rems, r.status ≠ ReminderStatus.pending → r ∈ rems2) ∧
    (∀ r ∈ rems,
        r.deadline_id ∉ deadlineIdsForAccount contact.account_id entities deadlines →
        r ∈ rems2) ∧
    result.cancelledReminders
      = (rems.filter (reminderCancelPred
          (deadlineIdsForAccount contact.account_id entities deadlines))).length ∧
    (∀ m ∈ msgs, messageCancelPred contactId m = true →
        { m with delivery_status := DeliveryStatus.cancelled } ∈ msgs2) ∧
    (∀ m ∈ msgs, m.delivery_status ≠ DeliveryStatus.queued → m ∈ msgs2) ∧
    (∀ m ∈ msgs, m.contact_id ≠ contactId → m ∈ msgs2) ∧
    result.cancelledMessages = (msgs.filter (messageCancelPred contactId)).length := by
  rw [cancelAllPendingReminders, cancelPendingReminders_eq hc] at hout
  simp only [cancelPendingMessagesForContact, Except.ok.injEq, Prod.mk.injEq] at hout
  obtain ⟨hres, hrems2, hmsgs2⟩ := hout
  refine ⟨?_, ?_, ?_, ?_, ?_, ?_, ?_, ?_⟩
  · intro r hr hp
    rw [← hrems2]
    exact List.mem_map.mpr ⟨r, hr, by rw [if_pos hp]⟩
  · intro r hr hs
    have hp : reminderCancelPred
        (deadlineIdsForAccount contact.account_id entities deadlines) r = false := by
      simp [reminderCancelPred, hs]
    rw [← hrems2]
    exact List.mem_map.mpr ⟨r, hr, by rw [if_neg (by simp [hp])]⟩
  · intro r hr hd
    have hp : reminderCancelPred
        (deadlineIdsForAccount contact.account_id entities deadlines) r = false := by
      simp [reminderCancelPred, hd]
    rw [← hrems2]
    exact List.mem_map.mpr ⟨r, hr, by rw [if_neg (by simp [hp])]⟩
  · rw [← hres]
  · intro m hm hp
    rw [← hmsgs2]
    exact List.mem_map.mpr ⟨m, hm, by rw [if_pos hp]⟩
  · intro m hm hs
    have hp : messageCancelPred contactId m = false := by
      simp [messageCancelPred, hs]
    rw [← hmsgs2]
    exact List.mem_map.mpr ⟨m, hm, by rw [if_neg (by simp [hp])]⟩
  · intro m hm hcid
    have hp : messageCancelPred contactId m = false := by
      simp [messageCancelPred, hcid]
    rw [← hmsgs2]
    exact List.mem_map.mpr ⟨m, hm, by rw [if_neg (by simp [hp])]⟩
  · rw [← hres]

/-- C6 witness: the theorem applied to a concrete state — one pending and
one sent reminder on the contact's deadline, one queued and one sent outbox
message — showing the sent reminder survives unchanged. -/
theorem C6_optout_cancels_only_pending_witness :
    selectSingle (fun c => c.id == 5)
        [(⟨5, 2, none, true, none, none⟩ : Contact)] = some ⟨5, 2, none, true, none, none⟩ ∧
    cancelAllPendingReminders 5 [⟨5, 2, none, true, none, none⟩] [⟨3, 2⟩] [⟨10, 3⟩]
        [⟨1, 10, "gst_deadline_tminus3", 50, none, ReminderStatus.pending, none, none, none⟩,
         ⟨2, 10, "gst_deadline_tminus1", 60, some 55, ReminderStatus.sent, none, none, none⟩]
        [⟨5, "gst_deadline_tminus3", ⟨"G", "GSTR-1", "2024-02-20"⟩, 50,
            DeliveryStatus.queued⟩,
         ⟨5, "gst_deadline_tminus1", ⟨"G", "GSTR-1", "2024-02-20"⟩, 60,
            DeliveryStatus.sent⟩]
      = Except.ok
          (⟨1, 1⟩,
           [⟨1, 10, "gst_deadline_tminus3", 50, none, ReminderStatus.cancelled, none,
              none, none⟩,
            ⟨2, 10, "gst_deadline_tminus1", 60, some 55, ReminderStatus.sent, none,
              none, none⟩],
           [⟨5, "gst_deadline_tminus3", ⟨"G", "GSTR-1", "2024-02-20"⟩, 50,
              DeliveryStatus.cancelled⟩,
            ⟨5, "gst_deadline_tminus1", ⟨"G", "GSTR-1", "2024-02-20"⟩, 60,
              DeliveryStatus.sent⟩]) ∧
    (⟨2, 10, "gst_deadline_tminus1", 60, some 55, ReminderStatus.sent, none, none,
        none⟩ : Reminder)
      ∈ [⟨1, 10, "gst_deadline_tminus3", 50, none, ReminderStatus.cancelled, none,
            none, none⟩,
         (⟨2, 10, "gst_deadline_tminus1", 60, some 55, ReminderStatus.sent, none,
            none, none⟩ : Reminder)] :=
  ⟨rfl, rfl,
   (C6_optout_cancels_only_pending 5 [⟨5, 2, none, true, none, none⟩] [⟨3, 2⟩] [⟨10, 3⟩]
      [⟨1, 10, "gst_deadline_tminus3", 50, none, ReminderStatus.pending, none, none, none⟩,
       ⟨2, 10, "gst_deadline_tminus1", 60, some 55, ReminderStatus.sent, none, none, none⟩]
      [⟨5, "gst_deadline_tminus3", ⟨"G", "GSTR-1", "2024-02-20"⟩, 50,
          DeliveryStatus.queued⟩,
       ⟨5, "gst_deadline_tminus1", ⟨"G", "GSTR-1", "2024-02-20"⟩, 60,
          DeliveryStatus.sent⟩]
      ⟨5, 2, none, true, none, none⟩ ⟨1, 1⟩
      [⟨1, 10, "gst_deadline_tminus3", 50, none, ReminderStatus.cancelled, none, none, none⟩,
       ⟨2, 10, "gst_deadline_tminus1", 60, some 55, ReminderStatus.sent, none, none, none⟩]
      [⟨5, "gst_deadline_tminus3", ⟨"G", "GSTR-1", "2024-02-20"⟩, 50,
          DeliveryStatus.cancelled⟩,
       ⟨5, "gst_deadline_tminus1", ⟨"G", "GSTR-1", "2024-02-20"⟩, 60,
          DeliveryStatus.sent⟩]
      rfl rfl).2.1
     ⟨2, 10, "gst_deadline_tminus1", 60, some 55, ReminderStatus.sent, none, none, none⟩
     (by decide) (by decide)⟩

/-- C7: when the consent update itself succeeds, `optOutContact` returns
`success = true` with no error for every outcome of the two cancellation
updates (`remErr`, `msgErr` range over success and failure): a cancellation
failure is never a hard failure of the opt-out and never rolls back the
consent flip — in the post-state every row of the contact carries
`whatsapp_consent = false` and `opt_out_at = now`. -/
theorem C7_optout_cleanup_failure_nonfatal (contactId : Nat) (reason : Option String)
    (now : Nat) (remErr msgErr : Bool) (contacts : List Contact)
    (rems : List VReminder) (msgs : List VMessage) :
    (optOutContact contactId reason now false remErr msgErr contacts rems msgs).1.success
        = true ∧
    (optOutContact contactId reason now false remErr msgErr contacts rems msgs).1.error
        = none ∧
    (∀ c ∈ contacts, c.id = contactId →
        applyOptOutContact now reason c
          ∈ (optOutContact contactId reason now false remErr msgErr contacts rems msgs).2.1) ∧
    (∀ c2 ∈ (optOutContact contactId reason now false remErr msgErr contacts rems msgs).2.1,
        c2.id = contactId →
        c2.whatsapp_consent = false ∧ c2.opt_out_at = some now) := by
  refine ⟨rfl, rfl, ?_, ?_⟩
  · intro c hc hid
    show applyOptOutContact now reason c
        ∈ contacts.map (fun x => if x.id == contactId then applyOptOutContact now reason x else x)
    exact List.mem_map.mpr ⟨c, hc, by simp [hid]⟩
  · intro c2 hc2 hid
    have hc2m : c2 ∈ contacts.map
        (fun x => if x.id == contactId then applyOptOutContact now reason x else x) := hc2
    rcases List.mem_map.mp hc2m with ⟨c, hcmem, hfc⟩
    by_cases hb : (c.id == contactId) = true
    · rw [if_pos hb] at hfc
      rw [← hfc]
      exact ⟨rfl, rfl⟩
    · rw [if_neg hb] at hfc
      rw [← hfc] at hid
      exact absurd (beq_iff_eq.mpr hid) hb

/-- C7 witness: the theorem applied with both cancellation legs failing
(`remErr = true`, `msgErr = true`): the opt-out still succeeds and the
contact row is flipped. -/
theorem C7_optout_cleanup_failure_nonfatal_witness :
    ((⟨5, 2, some "91", true, none, none⟩ : Contact) ∈ [(⟨5, 2, some "91", true, none, none⟩ : Contact)]) ∧
    (optOutContact 5 none 99 false true true
        [⟨5, 2, some "91", true, none, none⟩]
        [⟨1, 5, "pending", none⟩] [⟨1, 5, "queued", none⟩]).1.success = true ∧
    applyOptOutContact 99 none ⟨5, 2, some "91", true, none, none⟩
      ∈ (optOutContact 5 none 99 false true true
          [⟨5, 2, some "91", true, none, none⟩]
          [⟨1, 5, "pending", none⟩] [⟨1, 5, "queued", none⟩]).2.1 :=
  ⟨by decide,
   (C7_optout_cleanup_failure_nonfatal 5 none 99 true true
      [⟨5, 2, some "91", true, none, none⟩]
      [⟨1, 5, "pending", none⟩] [⟨1, 5, "queued", none⟩]).1,
   (C7_optout_cleanup_failure_nonfatal 5 none 99 true true
      [⟨5, 2, some "91", true, none, none⟩]
      [⟨1, 5, "pending", none⟩] [⟨1, 5, "queued", none⟩]).2.2.1
     ⟨5, 2, some "91", true, none, none⟩ (by decide) rfl⟩

/-- C8: when a deadline's `filed_at` transitions from null to a value, the
trigger flips every `pending` reminder of that deadline to `cancelled` with
the early-filing note (under the lifecycle invariant that pending reminders
have no `sent_at`), and leaves every `sent`/`failed`/`cancelled` reminder and
every reminder of another deadline unchanged. -/
theorem C8_filing_cancels_pending (t deadlineId : Nat) (rems : List Reminder)
    (hinv : ∀ r ∈ rems, r.status = ReminderStatus.pending → r.sent_at = none) :
    (∀ r ∈ rems, r.deadline_id = deadlineId → r.status = ReminderStatus.pending →
        { r with status := ReminderStatus.cancelled,
                 error_message := some "Deadline was filed early" }
          ∈ cancel_reminders_on_deadline_filed none (some t) deadlineId rems) ∧
    (∀ r ∈ rems, r.status ≠ ReminderStatus.pending →
        r ∈ cancel_reminders_on_deadline_filed none (some t) deadlineId rems) ∧
    (∀ r ∈ rems, r.deadline_id ≠ deadlineId →
        r ∈ cancel_reminders_on_deadline_filed none (some t) deadlineId rems) := by
  refine ⟨?_, ?_, ?_⟩
  · intro r hr hd hs
    have hsent : r.sent_at = none := hinv r hr hs
    exact List.mem_map.mpr ⟨r, hr, by simp [hd, hs, hsent]⟩
  · intro r hr hs
    exact List.mem_map.mpr ⟨r, hr, by simp [hs]⟩
  · intro r hr hd
    exact List.mem_map.mpr ⟨r, hr, by simp [hd]⟩

/-- C8 witness: the theorem applied to a deadline with one pending and one
sent reminder — the pending one becomes cancelled with the early-filing
note, the sent one survives unchanged. -/
theorem C8_filing_cancels_pending_witness :
    (∀ r ∈ [(⟨1, 7, "gst_deadline_tminus3", 50, none, ReminderStatus.pending, none, none,
                none⟩ : Reminder),
            ⟨2, 7, "gst_deadline_tminus1", 60, some 55, ReminderStatus.sent, none, none,
                none⟩],
        r.status = ReminderStatus.pending → r.sent_at = none) ∧
    ({ (⟨1, 7, "gst_deadline_tminus3", 50, none, ReminderStatus.pending, none, none,
          none⟩ : Reminder) with
          status := ReminderStatus.cancelled,
          error_message := some "Deadline was filed early" }
      ∈ cancel_reminders_on_deadline_filed none (some 90) 7
          [⟨1, 7, "gst_deadline_tminus3", 50, none, ReminderStatus.pending, none, none, none⟩,
           ⟨2, 7, "gst_deadline_tminus1", 60, some 55, ReminderStatus.sent, none, none, none⟩]) ∧
    ((⟨2, 7, "gst_deadline_tminus1", 60, some 55, ReminderStatus.sent, none, none,
        none⟩ : Reminder)
      ∈ cancel_reminders_on_deadline_filed none (some 90) 7
          [⟨1, 7, "gst_deadline_tminus3", 50, none, ReminderStatus.pending, none, none, none⟩,
           ⟨2, 7, "gst_deadline_tminus1", 60, some 55, ReminderStatus.sent, none, none, none⟩]) :=
  ⟨by decide,
   (C8_filing_cancels_pending 90 7
      [⟨1, 7, "gst_deadline_tminus3", 50, none, ReminderStatus.pending, none, none, none⟩,
       ⟨2, 7, "gst_deadline_tminus1", 60, some 55, ReminderStatus.sent, none, none, none⟩]
      (by decide)).1
     ⟨1, 7, "gst_deadline_tminus3", 50, none, ReminderStatus.pending, none, none, none⟩
     (by decide) rfl rfl,
   (C8_filing_cancels_pending 90 7
      [⟨1, 7, "gst_deadline_tminus3", 50, none, ReminderStatus.pending, none, none, none⟩,
       ⟨2, 7, "gst_deadline_tminus1", 60, some 55, ReminderStatus.sent, none, none, none⟩]
      (by decide)).2.1
     ⟨2, 7, "gst_deadline_tminus1", 60, some 55, ReminderStatus.sent, none, none, none⟩
     (by decide) (by decide)⟩

/-- C9: the generator evaluated at the monthly cadence with
asOfDate = 2024-01-15 returns exactly four drafts, for the periods December
2023 and January 2024 — not two drafts per month over the next twelve
calendar months.  The iteration steps `addMonths(baseDate, -monthsBack)`, so
the twelve generated periods lie in the **past** and the
"due date ≥ start of current month" filter discards all but two of them,
contradicting the function's stated next-12-months horizon.  (The weekend
roll-forward is visible: 2024-01-20 Sat → 2024-01-22 Mon, 2024-02-11 Sun →
2024-02-12 Mon; the output is ascending by due date.) -/
theorem C9_generator_backward_horizon :
    generateDeadlines FilingFrequency.monthly ⟨2024, 1, 15⟩
      = [⟨"GSTR-1", 12, 2023, ⟨2024, 1, 11⟩⟩,
         ⟨"GSTR-3B", 12, 2023, ⟨2024, 1, 22⟩⟩,
         ⟨"GSTR-1", 1, 2024, ⟨2024, 2, 12⟩⟩,
         ⟨"GSTR-3B", 1, 2024, ⟨2024, 2, 20⟩⟩] := by
  decide

/-- C10: the consent read fails closed — `hasWhatsAppConsent` returns true
exactly when the read succeeds, the contact row is found (uniquely), and it
carries `whatsapp_consent = true` with `opt_out_at` null; a database error or
an unknown contact therefore always yields false. -/
theorem C10_consent_check_fails_closed (dbErr : Bool) (contacts : List Contact)
    (contactId : Nat) :
    hasWhatsAppConsent dbErr contacts contactId = true
      ↔ dbErr = false ∧
        ∃ c, selectSingle (fun x => x.id == contactId) contacts = some c ∧
          c.whatsapp_consent = true ∧ c.opt_out_at = none := by
  cases dbErr
  · cases hsel : selectSingle (fun x => x.id == contactId) contacts with
    | none => simp [hasWhatsAppConsent, hsel]
    | some c =>
        simp [hasWhatsAppConsent, hsel, Bool.and_eq_true, Option.isNone_iff_eq_none]
  · simp [hasWhatsAppConsent]

end GST
